import Mathlib

/-!
Shallow embedding of `controller_plugin_base` (files
`src/controller_base.cpp` and `include/controller_plugin_base/controller_base.hpp`)
of the aerostack2 `controller_manager` repository.

Control-mode codes are `uint8_t` in C++; they are modelled as `Nat` here.
Every operation performed on them in this file is a bitwise mask (`&`),
an equality test or an unsigned comparison, none of which overflow, so
`Nat` agrees with `uint8_t` on all byte-sized values.

Message payloads (`geometry_msgs` poses/twists, thrust) carry floating
point fields that the embedded code only ever copies, never computes
with; each payload is therefore collapsed to a single `Int` field plus
the header stamp.
-/

namespace controller_plugin_base

/-- `#define MATCH_ALL 0b11111111` (controller_base.hpp). -/
def MATCH_ALL : Nat := 0b11111111

/-- `#define MATCH_MODE_AND_FRAME 0b11110011` (controller_base.hpp). -/
def MATCH_MODE_AND_FRAME : Nat := 0b11110011

/-- `#define MATCH_MODE 0b11110000` (controller_base.hpp). -/
def MATCH_MODE : Nat := 0b11110000

/-- `#define UNSET_MODE_MASK 0b00000000` (controller_base.hpp). -/
def UNSET_MODE_MASK : Nat := 0b00000000

/-- `#define HOVER_MODE_MASK 0b00010000` (controller_base.hpp). -/
def HOVER_MODE_MASK : Nat := 0b00010000

/-- `checkMatchWithMask` (controller_base.cpp, lines 50-54):
`(mode1 & mask) == (mode2 & mask)`. -/
def checkMatchWithMask (mode1 mode2 mask : Nat) : Bool :=
  (mode1 &&& mask) == (mode2 &&& mask)

/-- `findBestMatchWithMask` (controller_base.cpp, lines 56-72): scan the
list, overwriting `best_match` at every masked match, returning
immediately on an exact match; `0` when nothing matched. -/
def findBestMatchWithMask (mode : Nat) (mode_list : List Nat) (mask : Nat) : Nat :=
  go mode_list 0
where
  /-- The loop of `findBestMatchWithMask`, with `best_match` as accumulator. -/
  go : List Nat → Nat → Nat
  | [], best_match => best_match
  | candidate :: rest, best_match =>
    if checkMatchWithMask mode candidate mask then
      if candidate == mode then candidate
      else go rest candidate
    else go rest best_match

/-- Outcome of the membership loop of `checkSuitabilityInputMode`
(controller_base.cpp, lines 264-277): `hover` is the early
`return true`, `exact` is the `break` with `mode_found = true`,
`none` is falling off the end of the loop. -/
inductive MemberScan where
  | hover
  | exact
  | nomatch
deriving DecidableEq, Repr

/-- The membership loop of `checkSuitabilityInputMode`
(controller_base.cpp, lines 264-277).  Note the second conjunct of the
hover arm compares the *unmasked* list element `mode` with
`input_mode & MATCH_MODE`. -/
def membershipScan (input_mode : Nat) : List Nat → MemberScan
  | [] => .nomatch
  | mode :: rest =>
    if (input_mode &&& MATCH_MODE) == HOVER_MODE_MASK
        && (input_mode &&& MATCH_MODE) == mode then
      .hover
    else if mode == input_mode then
      .exact
    else membershipScan input_mode rest

/-- `ControllerBase::checkSuitabilityInputMode` (controller_base.cpp,
lines 259-288).  After the membership loop, the level check is
`(input_mode & MATCH_MODE) < (output_mode & 0b1111000)` — the output
mask in the source is the seven-bit literal `0b1111000`, not
`MATCH_MODE`. -/
def checkSuitabilityInputMode (input_mode output_mode : Nat)
    (controller_available_modes_in : List Nat) : Bool :=
  match membershipScan input_mode controller_available_modes_in with
  | .hover => true
  | .exact =>
    if (input_mode &&& MATCH_MODE) < (output_mode &&& 0b1111000) then false
    else true
  | .nomatch =>
    if (input_mode &&& MATCH_MODE) < (output_mode &&& 0b1111000) then false
    else false

/-- `ControllerBase::tryToBypassController` (controller_base.cpp, lines
240-257).  `output_mode` is an in-out reference in C++; the returned
pair is (function result, final value of `output_mode`). -/
def tryToBypassController (input_mode output_mode : Nat)
    (platform_available_modes_in : List Nat) : Bool × Nat :=
  if (input_mode &&& MATCH_MODE) == UNSET_MODE_MASK
      || (input_mode &&& MATCH_MODE) == HOVER_MODE_MASK then
    (false, output_mode)
  else
    let candidate_mode := findBestMatchWithMask input_mode platform_available_modes_in MATCH_ALL
    if candidate_mode ≠ 0 then (true, candidate_mode)
    else (false, output_mode)

/-- The scan loop of
`ControllerBase::findSuitableOutputControlModeForPlatformInputMode`
(controller_base.cpp, lines 310-318): UNSET- and HOVER-class output
modes are skipped (`continue`); every other iteration *overwrites*
`common_mode` with the match result, even when that result is `0`. -/
def outputModeScan (controller_available_modes_out platform_available_modes_in : List Nat) : Nat :=
  controller_available_modes_out.foldl
    (fun common_mode mode_out =>
      if (mode_out &&& MATCH_MODE) == UNSET_MODE_MASK
          || (mode_out &&& MATCH_MODE) == HOVER_MODE_MASK then
        common_mode
      else
        findBestMatchWithMask mode_out platform_available_modes_in MATCH_ALL)
    0

/-- `ControllerBase::findSuitableOutputControlModeForPlatformInputMode`
(controller_base.cpp, lines 290-327).  `output_mode` is an in-out
reference; the returned pair is (function result, final value of
`output_mode`).  The `input_mode` argument is unused in the source as
well. -/
def findSuitableOutputControlModeForPlatformInputMode
    (prefered_output_mode : Nat)
    (controller_available_modes_out platform_available_modes_in : List Nat)
    (output_mode input_mode : Nat) : Bool × Nat :=
  let _ := input_mode
  let preferedBranch :=
    if prefered_output_mode ≠ 0 then
      let m := findBestMatchWithMask prefered_output_mode platform_available_modes_in MATCH_ALL
      if m ≠ 0 then some m else none
    else none
  match preferedBranch with
  | some m => (true, m)
  | none =>
    let common_mode := outputModeScan controller_available_modes_out platform_available_modes_in
    if common_mode == 0 then (false, output_mode)
    else (true, common_mode)

/-- `geometry_msgs::msg::PoseStamped`: header stamp plus the numeric
pose payload (seven doubles in ROS, only ever copied by this code,
collapsed to one `Int`). -/
structure PoseStamped where
  stamp : Nat
  pose : Int
deriving DecidableEq, Repr

/-- `geometry_msgs::msg::TwistStamped`: header stamp plus the numeric
twist payload (six doubles in ROS, only ever copied, collapsed to one
`Int`). -/
structure TwistStamped where
  stamp : Nat
  twist : Int
deriving DecidableEq, Repr

/-- `as2_msgs::msg::Thrust`: header stamp plus the numeric payload. -/
structure Thrust where
  stamp : Nat
  thrust : Int
deriving DecidableEq, Repr

/-- `trajectory_msgs::msg::JointTrajectoryPoint`, collapsed to its
numeric payload (only ever copied by this code). -/
structure TrajectoryPoint where
  point : Int
deriving DecidableEq, Repr

/-- `as2_msgs::msg::ControlMode`: the three enum fields of the message. -/
structure ControlModeMsg where
  control_mode : Nat
  yaw_mode : Nat
  reference_frame : Nat
deriving DecidableEq, Repr

/-- The `as2_msgs::msg::ControlMode::UNSET` constant (value 0). -/
def ControlModeMsg.UNSET : Nat := 0

/-- The `as2_msgs::msg::ControlMode::HOVER` constant (value 1). -/
def ControlModeMsg.HOVER : Nat := 1

/-- The mutable members of `ControllerBase` that the negotiation, the
subscription callbacks and the control-loop timer read and write
(controller_base.hpp, lines 81-172; `platform_info_` is reduced to the
two flags the code reads). -/
structure CState where
  use_bypass : Bool
  bypass_controller : Bool
  control_mode_established : Bool
  motion_reference_adquired : Bool
  state_adquired : Bool
  controller_available_modes_in : List Nat
  controller_available_modes_out : List Nat
  platform_available_modes_in : List Nat
  prefered_output_mode : Nat
  input_mode : ControlModeMsg
  output_mode : ControlModeMsg
  platform_armed : Bool
  platform_offboard : Bool
  pose : PoseStamped
  twist : TwistStamped
  ref_pose : PoseStamped
  ref_twist : TwistStamped
  ref_traj : TrajectoryPoint
deriving DecidableEq, Repr

/-- Behaviour of the external collaborators consulted during one
`setControlModeSrvCall`: the platform's two services and the subclass
hooks, plus the `as2` mode codec (`convertAS2ControlModeToUint8t` /
`convertUint8tToAS2ControlMode`, which live in `as2_core`, outside this
repository, and are kept abstract). -/
structure NegEnv where
  /-- `ListControlModes` response: `none` = transport failure,
  `some l` = the `control_modes` field of the response. -/
  list_response : Option (List Nat)
  /-- Combined outcome of `setPlatformControlMode`: `true` iff the call
  succeeded transport-level and the response's `success` field is set. -/
  platform_accepts : ControlModeMsg → Bool
  /-- The subclass's `setMode` hook. -/
  set_mode_result : ControlModeMsg → ControlModeMsg → Bool
  /-- `as2::convertAS2ControlModeToUint8t`. -/
  conv : ControlModeMsg → Nat
  /-- `as2::convertUint8tToAS2ControlMode`. -/
  convBack : Nat → ControlModeMsg

/-- `ControllerBase::listPlatformAvailableControlModes`
(controller_base.cpp, lines 206-238): lazily fetch and cache the
platform's mode list; `false` on transport failure or empty response,
with no mutation in either failure case. -/
def listPlatformAvailableControlModes (env : NegEnv) (s : CState) : CState × Bool :=
  if s.platform_available_modes_in.isEmpty then
    match env.list_response with
    | none => (s, false)
    | some l =>
      if l.isEmpty then (s, false)
      else ({ s with platform_available_modes_in := l }, true)
  else (s, true)

/-- Step 1 of `setControlModeSrvCall` (controller_base.cpp, lines
335-343): HOVER requests map to `HOVER_MODE_MASK`, everything else is
encoded through the `as2` codec. -/
def desiredInputMode (env : NegEnv) (request : ControlModeMsg) : Nat :=
  if request.control_mode == ControlModeMsg.HOVER then HOVER_MODE_MASK
  else env.conv request

/-- Tail of `setControlModeSrvCall` from the platform request on
(controller_base.cpp, lines 388-428): ask the platform to switch to the
candidate output mode, store the negotiated pair, call the subclass's
`setMode` (with UNSET/UNSET on the bypass path), and record success in
`control_mode_established_`.  Only the non-bypass branch clears
`state_adquired_` and `motion_reference_adquired_`: the bypass branch
returns at line 411, before those assignments. -/
def afterValidation (env : NegEnv) (request : ControlModeMsg) (s : CState)
    (output_control_mode_candidate : Nat) : CState × Bool :=
  let mode_to_request := env.convBack output_control_mode_candidate
  if ¬ env.platform_accepts mode_to_request then (s, false)
  else
    let s := { s with input_mode := request, output_mode := mode_to_request }
    if s.bypass_controller then
      let unset_mode := env.convBack UNSET_MODE_MASK
      let success := env.set_mode_result unset_mode unset_mode
      ({ s with control_mode_established := success }, success)
    else
      let success := env.set_mode_result s.input_mode s.output_mode
      ({ s with
          control_mode_established := success,
          state_adquired := false,
          motion_reference_adquired := false }, success)

/-- `ControllerBase::setControlModeSrvCall` (controller_base.cpp, lines
329-429).  Returns the post-state and the response's `success` field.
`control_mode_established_` is cleared unconditionally at entry
(line 333). -/
def setControlModeSrvCall (env : NegEnv) (request : ControlModeMsg) (s : CState) :
    CState × Bool :=
  let s := { s with control_mode_established := false }
  let input_control_mode_desired := desiredInputMode env request
  match listPlatformAvailableControlModes env s with
  | (s, false) => (s, false)
  | (s, true) =>
    let (byp, output_control_mode_candidate) :=
      if s.use_bypass then
        tryToBypassController input_control_mode_desired 0 s.platform_available_modes_in
      else (false, 0)
    let s := { s with bypass_controller := byp }
    if byp then afterValidation env request s output_control_mode_candidate
    else
      let (found, output_control_mode_candidate) :=
        findSuitableOutputControlModeForPlatformInputMode s.prefered_output_mode
          s.controller_available_modes_out s.platform_available_modes_in
          output_control_mode_candidate input_control_mode_desired
      if ¬ found then (s, false)
      else if ¬ checkSuitabilityInputMode input_control_mode_desired
          output_control_mode_candidate s.controller_available_modes_in then
        (s, false)
      else afterValidation env request s output_control_mode_candidate

/-- `ControllerBase::state_callback` (controller_base.cpp, lines
131-139).  The returned `Bool` records whether the sample was forwarded
to the subclass's `updateState` hook (it is not when bypassing). -/
def state_callback (pose_msg : PoseStamped) (twist_msg : TwistStamped) (s : CState) :
    CState × Bool :=
  let s := { s with state_adquired := true, pose := pose_msg, twist := twist_msg }
  (s, ¬ s.bypass_controller)

/-- `ControllerBase::ref_pose_callback` (controller_base.cpp, lines
141-147); the `Bool` records forwarding to `updateReference`. -/
def ref_pose_callback (msg : PoseStamped) (s : CState) : CState × Bool :=
  let s := { s with motion_reference_adquired := true, ref_pose := msg }
  (s, ¬ s.bypass_controller)

/-- `ControllerBase::ref_twist_callback` (controller_base.cpp, lines
149-155); the `Bool` records forwarding to `updateReference`. -/
def ref_twist_callback (msg : TwistStamped) (s : CState) : CState × Bool :=
  let s := { s with motion_reference_adquired := true, ref_twist := msg }
  (s, ¬ s.bypass_controller)

/-- `ControllerBase::ref_traj_callback` (controller_base.cpp, lines
157-164); the `Bool` records forwarding to `updateReference`. -/
def ref_traj_callback (msg : TrajectoryPoint) (s : CState) : CState × Bool :=
  let s := { s with motion_reference_adquired := true, ref_traj := msg }
  (s, ¬ s.bypass_controller)

/-- `ControllerBase::platform_info_callback` (controller_base.cpp,
lines 166-169), reduced to the two flags the code reads. -/
def platform_info_callback (armed offboard : Bool) (s : CState) : CState :=
  { s with platform_armed := armed, platform_offboard := offboard }

/-- What one control-loop tick publishes and which subclass hook it
invoked. -/
structure TickOutput where
  pose_pub : Option PoseStamped
  twist_pub : Option TwistStamped
  thrust_pub : Option Thrust
  compute_called : Bool
deriving DecidableEq, Repr

/-- A tick that publishes nothing and calls no hook. -/
def TickOutput.none : TickOutput :=
  { pose_pub := Option.none, twist_pub := Option.none,
    thrust_pub := Option.none, compute_called := false }

/-- `ControllerBase::sendCommand` (controller_base.cpp, lines 431-459).
`compute` stands for the values the subclass's `computeOutput` hook
writes into the three messages this tick.  On the bypass path the
cached `ref_pose_` / `ref_twist_` are published as they are — no field,
the stamp included, is touched; on the direct path the three messages
are stamped with the single clock read `now`. -/
def sendCommand (compute : PoseStamped × TwistStamped × Thrust) (now : Nat)
    (s : CState) : TickOutput :=
  if s.bypass_controller then
    if ¬ s.motion_reference_adquired then TickOutput.none
    else
      { pose_pub := some s.ref_pose, twist_pub := some s.ref_twist,
        thrust_pub := Option.none, compute_called := false }
  else
    let (pose, twist, thrust) := compute
    let pose := { pose with stamp := now }
    let twist := { twist with stamp := pose.stamp }
    let thrust := { thrust with stamp := pose.stamp }
    { pose_pub := some pose, twist_pub := some twist,
      thrust_pub := some thrust, compute_called := true }

/-- `ControllerBase::control_timer_callback` (controller_base.cpp,
lines 171-192): no-op unless offboard and armed, a mode is established
and a state sample has been acquired. -/
def control_timer_callback (compute : PoseStamped × TwistStamped × Thrust) (now : Nat)
    (s : CState) : TickOutput :=
  if ¬ s.platform_offboard || ¬ s.platform_armed then TickOutput.none
  else if ¬ s.control_mode_established then TickOutput.none
  else if ¬ s.state_adquired then TickOutput.none
  else sendCommand compute now s

/-- `ControllerBase::setInputControlModesAvailables`
(controller_base.hpp, lines 143-147): store the list sorted
ascending. -/
def setInputControlModesAvailables (available_modes : List Nat) (s : CState) : CState :=
  { s with controller_available_modes_in := available_modes.insertionSort (· ≤ ·) }

/-- `ControllerBase::setOutputControlModesAvailables`
(controller_base.hpp, lines 149-153): store the list sorted
ascending. -/
def setOutputControlModesAvailables (available_modes : List Nat) (s : CState) : CState :=
  { s with controller_available_modes_out := available_modes.insertionSort (· ≤ ·) }

/-- `ControllerBase::getMode` (controller_base.hpp, line 141): returns
`input_mode_`. -/
def getMode (s : CState) : ControlModeMsg := s.input_mode

/-- The state right after `ControllerBase::initialize`
(controller_base.cpp, lines 74-129) and the subclass's configuration
calls: all flags false, both negotiated modes UNSET, empty platform
cache, controller mode lists stored sorted, `use_bypass` from the node
parameter. -/
def initState (use_bypass : Bool) (modes_in modes_out : List Nat)
    (prefered : Nat) : CState :=
  setInputControlModesAvailables modes_in <| setOutputControlModesAvailables modes_out
    { use_bypass := use_bypass
      bypass_controller := false
      control_mode_established := false
      motion_reference_adquired := false
      state_adquired := false
      controller_available_modes_in := []
      controller_available_modes_out := []
      platform_available_modes_in := []
      prefered_output_mode := prefered
      input_mode := ⟨ControlModeMsg.UNSET, 0, 0⟩
      output_mode := ⟨ControlModeMsg.UNSET, 0, 0⟩
      platform_armed := false
      platform_offboard := false
      pose := ⟨0, 0⟩
      twist := ⟨0, 0⟩
      ref_pose := ⟨0, 0⟩
      ref_twist := ⟨0, 0⟩
      ref_traj := ⟨0⟩ }

/-- The externally driven inputs of the node, for trace-level
statements: incoming samples, platform info, and mode-change service
requests.  Control-loop ticks are applied separately through
`control_timer_callback`. -/
inductive Event where
  | stateSample (pose : PoseStamped) (twist : TwistStamped)
  | refPoseMsg (msg : PoseStamped)
  | refTwistMsg (msg : TwistStamped)
  | refTrajMsg (msg : TrajectoryPoint)
  | platformInfoMsg (armed offboard : Bool)
  | negotiateReq (env : NegEnv) (request : ControlModeMsg)

/-- Whether an event is a mode-change request. -/
def Event.isNegotiate : Event → Bool
  | .negotiateReq _ _ => true
  | _ => false

/-- Whether an event is a synchronized state sample. -/
def Event.isStateSample : Event → Bool
  | .stateSample _ _ => true
  | _ => false

/-- One event applied to the node state. -/
def step (s : CState) : Event → CState
  | .stateSample p t => (state_callback p t s).1
  | .refPoseMsg m => (ref_pose_callback m s).1
  | .refTwistMsg m => (ref_twist_callback m s).1
  | .refTrajMsg m => (ref_traj_callback m s).1
  | .platformInfoMsg a o => platform_info_callback a o s
  | .negotiateReq env req => (setControlModeSrvCall env req s).1

/-- Fold a list of events over a state. -/
def run (s : CState) (es : List Event) : CState :=
  es.foldl step s

/-- `true` iff a state sample arrived strictly after the last
mode-change request of the trace (all of the trace counts when it holds
no request). -/
def sampleSinceLastNegotiation (es : List Event) : Bool :=
  (es.reverse.takeWhile (fun e => ¬ e.isNegotiate)).any Event.isStateSample

/-- The membership acceptance condition as the specification words it
(for comparison with the implementation's `membershipScan`): the
desired input mode is class-HOVER and matches some controller input
mode under `MATCH_MODE`, or is byte-identical to some controller input
mode. -/
def specMembershipCheck (input_mode : Nat) (modes : List Nat) : Bool :=
  ((input_mode &&& MATCH_MODE) == HOVER_MODE_MASK
      && modes.any (fun m => (m &&& MATCH_MODE) == (input_mode &&& MATCH_MODE)))
    || modes.any (fun m => m == input_mode)

/-- The validation stages of `setControlModeSrvCall` up to (and
excluding) the platform mode-set request, mirroring the early exits of
the source (controller_base.cpp, lines 345-386): `some cand` when the
negotiation goes on to request output mode `cand` from the platform,
`none` when it fails before that point. -/
def negotiationCandidate (env : NegEnv) (request : ControlModeMsg) (s : CState) :
    Option Nat :=
  let s := { s with control_mode_established := false }
  let input_control_mode_desired := desiredInputMode env request
  match listPlatformAvailableControlModes env s with
  | (_, false) => none
  | (s, true) =>
    let (byp, output_control_mode_candidate) :=
      if s.use_bypass then
        tryToBypassController input_control_mode_desired 0 s.platform_available_modes_in
      else (false, 0)
    if byp then some output_control_mode_candidate
    else
      let (found, output_control_mode_candidate) :=
        findSuitableOutputControlModeForPlatformInputMode s.prefered_output_mode
          s.controller_available_modes_out s.platform_available_modes_in
          output_control_mode_candidate input_control_mode_desired
      if ¬ found then none
      else if ¬ checkSuitabilityInputMode input_control_mode_desired
          output_control_mode_candidate s.controller_available_modes_in then
        none
      else some output_control_mode_candidate

/-! ### Concrete scenarios used by counterexamples and witnesses -/

/-- An environment in which the platform advertises exactly `{0x12}`
and accepts every request, used for the claim-1 scenario. -/
def scenarioEnvC1 : NegEnv :=
  { list_response := some [0x12]
    platform_accepts := fun _ => true
    set_mode_result := fun _ _ => true
    conv := fun m => m.control_mode
    convBack := fun n => ⟨n, 0, 0⟩ }

/-- Controller configured with output modes `{0x21, 0x12}` (in that
configured order), no preferred output mode, bypass disabled. -/
def scenarioStateC1 : CState := initState false [0x12] [0x21, 0x12] 0

/-- An environment whose platform advertises `{0x55}`, accepts every
mode-set request, and whose subclass `setMode` succeeds; the codec maps
every non-HOVER request to `0x55`. -/
def bypassEnv : NegEnv :=
  { list_response := some [0x55]
    platform_accepts := fun _ => true
    set_mode_result := fun _ _ => true
    conv := fun _ => 0x55
    convBack := fun n => ⟨n, 0, 0⟩ }

/-- A state with bypass enabled, the platform list already cached as
`[0x55]`, and both acquired flags set. -/
def bypassState : CState :=
  { initState true [] [] 0 with
      platform_available_modes_in := [0x55]
      state_adquired := true
      motion_reference_adquired := true }

/-- A request whose `control_mode` field is neither UNSET nor HOVER. -/
def speedRequest : ControlModeMsg := ⟨5, 0, 0⟩

/-- `bypassEnv`, except that the subclass's `setMode` hook rejects. -/
def bypassEnvSetModeFails : NegEnv :=
  { bypassEnv with set_mode_result := fun _ _ => false }

/-- A state for a direct-path negotiation: bypass disabled, the
controller accepts and produces `{0x55}`, the platform list already
cached as `[0x55]`, and both acquired flags set. -/
def directState : CState :=
  { initState false [0x55] [0x55] 0 with
      platform_available_modes_in := [0x55]
      state_adquired := true
      motion_reference_adquired := true }

/-- `bypassEnv`, except that the platform rejects the mode-set
request. -/
def bypassEnvPlatformRejects : NegEnv :=
  { bypassEnv with platform_accepts := fun _ => false }

/-- An environment whose platform answers the list request with an
empty mode list. -/
def emptyListEnv : NegEnv :=
  { bypassEnv with list_response := some [] }

/-- A state with an established control mode and the platform mode list
never fetched. -/
def establishedState : CState :=
  { initState false [] [] 0 with control_mode_established := true }

/-- An eligible bypassing state whose cached reference carries stamp 5:
armed, offboard, established, bypassing, both flags set. -/
def bypassTickState : CState :=
  { initState true [] [] 0 with
      bypass_controller := true
      control_mode_established := true
      state_adquired := true
      motion_reference_adquired := true
      platform_armed := true
      platform_offboard := true
      ref_pose := ⟨5, 7⟩
      ref_twist := ⟨5, 11⟩ }

/-- A fixed value for the subclass `computeOutput` hook. -/
def someCompute : PoseStamped × TwistStamped × Thrust := (⟨0, 3⟩, ⟨0, 4⟩, ⟨0, 5⟩)

/-- Trace for the claim-8 scenario: platform armed and offboard, one
state sample and both references arrive, then a successful bypass
negotiation — and no state sample after it. -/
def traceC8 : List Event :=
  [ .platformInfoMsg true true
  , .stateSample ⟨1, 10⟩ ⟨1, 20⟩
  , .refPoseMsg ⟨2, 30⟩
  , .refTwistMsg ⟨2, 40⟩
  , .negotiateReq bypassEnv speedRequest ]

/-! ## Helper lemmas -/

/-- Characterization of the scan loop of `findBestMatchWithMask`: with
accumulator `acc`, the loop returns `mode` itself as soon as `mode`
occurs in the remaining list, and otherwise returns the last masked
match, falling back to `acc`. -/
theorem findBestMatch_go_spec (mode mask : Nat) :
    ∀ (l : List Nat) (acc : Nat),
      (mode ∈ l → findBestMatchWithMask.go mode mask l acc = mode)
      ∧ (mode ∉ l → findBestMatchWithMask.go mode mask l acc =
          (l.filter (fun c => checkMatchWithMask mode c mask)).getLastD acc) := by
  intro l
  induction l with
  | nil => intro acc; simp [findBestMatchWithMask.go]
  | cons c rest ih =>
    intro acc
    by_cases hmatch : checkMatchWithMask mode c mask
    · by_cases hexact : c = mode
      · constructor
        · intro _
          have hself : checkMatchWithMask mode mode mask = true := by
            simp [checkMatchWithMask]
          simp [findBestMatchWithMask.go, hmatch, hexact, hself]
        · intro hmem
          exact absurd (hexact ▸ List.mem_cons_self c rest) hmem
      · have hgo : findBestMatchWithMask.go mode mask (c :: rest) acc =
            findBestMatchWithMask.go mode mask rest c := by
          simp [findBestMatchWithMask.go, hmatch, hexact]
        constructor
        · intro hmem
          rcases List.mem_cons.mp hmem with h | h
          · exact absurd h.symm hexact
          · exact hgo.trans ((ih c).1 h)
        · intro hmem
          have hrest : mode ∉ rest := fun h => hmem (List.mem_cons_of_mem c h)
          rw [hgo, (ih c).2 hrest]
          have hfc : (c :: rest).filter (fun x => checkMatchWithMask mode x mask) =
              c :: rest.filter (fun x => checkMatchWithMask mode x mask) := by
            rw [List.filter_cons, if_pos hmatch]
          rw [hfc, List.getLastD_cons]
    · have hexact : c ≠ mode := by
        intro h
        apply hmatch
        simp [h, checkMatchWithMask]
      have hgo : findBestMatchWithMask.go mode mask (c :: rest) acc =
          findBestMatchWithMask.go mode mask rest acc := by
        simp [findBestMatchWithMask.go, hmatch]
      constructor
      · intro hmem
        rcases List.mem_cons.mp hmem with h | h
        · exact absurd h.symm hexact
        · exact hgo.trans ((ih acc).1 h)
      · intro hmem
        have hrest : mode ∉ rest := fun h => hmem (List.mem_cons_of_mem c h)
        rw [hgo, (ih acc).2 hrest]
        simp [List.filter_cons, hmatch]

/-- Masking with the full byte determines the class nibble: if
`d & 0xFF = v` then `d & 0xF0 = v & 0xF0`. -/
theorem and_byte_determines_class (d v : Nat) (h : d &&& 255 = v) :
    d &&& 240 = v &&& 240 := by
  have h2 : (d &&& 255) &&& 240 = v &&& 240 := by rw [h]
  rwa [Nat.and_assoc] at h2

/-- Against a platform advertising exactly `{0x12}`, the bypass attempt
always fails: a byte matching `0x12` under `MATCH_ALL` has class nibble
`HOVER_MODE_MASK`, which the bypass check excludes up front. -/
theorem tryToBypass_single_hover (d : Nat) :
    tryToBypassController d 0 [0x12] = (false, 0) := by
  unfold tryToBypassController
  by_cases hclass : ((d &&& MATCH_MODE) == UNSET_MODE_MASK
      || (d &&& MATCH_MODE) == HOVER_MODE_MASK) = true
  · simp [hclass]
  · have hne : ¬ ((d &&& 255) == (18 &&& 255)) = true := by
      intro hbeq
      have h18 : d &&& 255 = 18 := by
        have := of_decide_eq_true hbeq
        simpa using this
      have : d &&& 240 = 16 := by
        have := and_byte_determines_class d 18 h18
        simpa using this
      apply hclass
      simp [MATCH_MODE, HOVER_MODE_MASK, this]
    have hfind : findBestMatchWithMask d [18] MATCH_ALL = 0 := by
      simp only [findBestMatchWithMask, findBestMatchWithMask.go,
        checkMatchWithMask, MATCH_ALL]
      rw [if_neg]
      intro hcontra
      exact hne (by simpa using hcontra)
    simp [hclass, hfind]

/-- In the claim-1 configuration (no preferred mode, controller output
modes `[0x12, 0x21]` as stored sorted, platform `[0x12]`), the output
search fails for every desired input mode: the scan skips `0x12`
(HOVER class) and `0x21` has no exact platform match. -/
theorem findSuitable_fails_C1 (d : Nat) :
    findSuitableOutputControlModeForPlatformInputMode 0 [18, 33] [18] 0 d = (false, 0) := rfl

/-- `listPlatformAvailableControlModes` only ever touches the cached
platform mode list. -/
theorem listPlatform_shape (env : NegEnv) (s : CState) :
    ∃ pm, (listPlatformAvailableControlModes env s).1 =
      { s with platform_available_modes_in := pm } := by
  unfold listPlatformAvailableControlModes
  by_cases hemp : s.platform_available_modes_in.isEmpty
  · cases henv : env.list_response with
    | none => exact ⟨s.platform_available_modes_in, by simp [hemp, henv]⟩
    | some l =>
      by_cases hl : l.isEmpty
      · exact ⟨s.platform_available_modes_in, by simp [hemp, henv, hl]⟩
      · exact ⟨l, by simp [hemp, henv, hl]⟩
  · exact ⟨s.platform_available_modes_in, by simp [hemp]⟩

/-- Explicit case description of `afterValidation`: platform rejection
returns the state unchanged with failure; otherwise the negotiated pair
is stored and the subclass verdict becomes both the response and
`control_mode_established_`, with the acquired flags cleared exactly on
the non-bypass branch. -/
theorem afterValidation_eq (env : NegEnv) (req : ControlModeMsg) (s : CState) (cand : Nat) :
    afterValidation env req s cand =
      if env.platform_accepts (env.convBack cand) then
        if s.bypass_controller then
          ({ s with
              input_mode := req,
              output_mode := env.convBack cand,
              control_mode_established :=
                env.set_mode_result (env.convBack UNSET_MODE_MASK) (env.convBack UNSET_MODE_MASK) },
            env.set_mode_result (env.convBack UNSET_MODE_MASK) (env.convBack UNSET_MODE_MASK))
        else
          ({ s with
              input_mode := req,
              output_mode := env.convBack cand,
              control_mode_established := env.set_mode_result req (env.convBack cand),
              state_adquired := false,
              motion_reference_adquired := false },
            env.set_mode_result req (env.convBack cand))
      else (s, false) := by
  unfold afterValidation
  by_cases hacc : env.platform_accepts (env.convBack cand)
  · by_cases hbyp : s.bypass_controller <;> simp [hacc, hbyp]
  · simp [hacc]

/-- Every run of `setControlModeSrvCall` either fails during fetching
or validation — returning failure with only `control_mode_established_`
(cleared), the platform cache and `bypass_controller_` possibly
written — or reaches the platform mode-set request with the candidate
computed by `negotiationCandidate`, and finishes as `afterValidation`
from such a state. -/
theorem setControlMode_paths (env : NegEnv) (req : ControlModeMsg) (s : CState) :
    (∃ pm byp, negotiationCandidate env req s = none ∧
        setControlModeSrvCall env req s =
        ({ s with
            control_mode_established := false,
            platform_available_modes_in := pm,
            bypass_controller := byp }, false))
    ∨ (∃ pm byp cand, negotiationCandidate env req s = some cand ∧
        setControlModeSrvCall env req s =
          afterValidation env req
            { s with
                control_mode_established := false,
                platform_available_modes_in := pm,
                bypass_controller := byp } cand) := by
  obtain ⟨pm, hpm⟩ := listPlatform_shape env { s with control_mode_established := false }
  rcases hlp : listPlatformAvailableControlModes env { s with control_mode_established := false }
    with ⟨s1, b⟩
  rw [hlp] at hpm
  simp only at hpm
  subst hpm
  cases b
  · left
    refine ⟨pm, s.bypass_controller, ?_, ?_⟩
    · simp [negotiationCandidate, hlp]
    · simp [setControlModeSrvCall, hlp]
  · rcases htb : (if s.use_bypass then
        tryToBypassController (desiredInputMode env req) 0 pm else (false, 0))
      with ⟨byp, cand⟩
    cases byp
    · rcases hfs : findSuitableOutputControlModeForPlatformInputMode s.prefered_output_mode
          s.controller_available_modes_out pm cand (desiredInputMode env req)
        with ⟨found, cand2⟩
      cases found
      · left
        refine ⟨pm, false, ?_, ?_⟩
        · simp [negotiationCandidate, hlp, htb, hfs]
        · simp [setControlModeSrvCall, hlp, htb, hfs]
      · by_cases hcs : checkSuitabilityInputMode (desiredInputMode env req) cand2
            s.controller_available_modes_in
        · right
          refine ⟨pm, false, cand2, ?_, ?_⟩
          · simp [negotiationCandidate, hlp, htb, hfs, hcs]
          · simp [setControlModeSrvCall, hlp, htb, hfs, hcs]
        · left
          refine ⟨pm, false, ?_, ?_⟩
          · simp [negotiationCandidate, hlp, htb, hfs, hcs]
          · simp [setControlModeSrvCall, hlp, htb, hfs, hcs]
    · right
      refine ⟨pm, true, cand, ?_, ?_⟩
      · simp [negotiationCandidate, hlp, htb]
      · simp [setControlModeSrvCall, hlp, htb]

/-! ## Claims -/

/-- C7: for every mode, candidate list and mask, `findBestMatchWithMask`
returns the exact match `mode` whenever `mode` occurs in the list (the
point where the scan stops); otherwise it returns the last masked match
seen during the scan, and the sentinel `0` when nothing matches — the
last two cases are together `getLastD 0` of the masked matches. -/
theorem claim7_findBestMatch_spec (mode : Nat) (mode_list : List Nat) (mask : Nat) :
    (mode ∈ mode_list → findBestMatchWithMask mode mode_list mask = mode)
    ∧ (mode ∉ mode_list → findBestMatchWithMask mode mode_list mask =
        (mode_list.filter (fun c => checkMatchWithMask mode c mask)).getLastD 0) := by
  have h := findBestMatch_go_spec mode mask mode_list 0
  simpa [findBestMatchWithMask] using h

/-- Witness for C7: scanning `[0x23, 0x2F]` for `0x21` under
`MATCH_MODE`, no exact match exists and the last masked match `0x2F`
is returned. -/
theorem claim7_findBestMatch_spec_witness :
    findBestMatchWithMask 0x21 [0x23, 0x2F] 0xF0 = 0x2F := by
  have h := (claim7_findBestMatch_spec 0x21 [0x23, 0x2F] 0xF0).2 (by decide)
  rw [h]; decide

/-- C2 (code-bug evidence): the level check of
`checkSuitabilityInputMode` masks the output mode with the seven-bit
literal `0b1111000` instead of `MATCH_MODE`, so with input `0x20`
(accepted, byte-identical member of the list) and output `0x80` the
code accepts, although the input class nibble (`0b0010`) is strictly
below the output class nibble (`0b1000`) and the documented check
`(input & MATCH_MODE) < (output & MATCH_MODE)` demands rejection with
`IncompatibleModeLevel`. -/
theorem claim2_level_check_mask_slip :
    checkSuitabilityInputMode 0x20 0x80 [0x20] = true
      ∧ (0x20 &&& MATCH_MODE) < (0x80 &&& MATCH_MODE) := by decide

/-- C1 (counterexample): with controller output modes `{0x21, 0x12}`,
platform modes `{0x12}` and no preferred mode, the negotiation fails —
it does not select `0x12`: the stored output mode stays UNSET and the
response reports failure, because the scan skips `0x12` (HOVER class)
and `0x21` has no exact platform match under `MATCH_ALL`. -/
theorem claim1_counterexample :
    (setControlModeSrvCall scenarioEnvC1 ⟨ControlModeMsg.HOVER, 0, 0⟩ scenarioStateC1).2 = false
      ∧ (setControlModeSrvCall scenarioEnvC1 ⟨ControlModeMsg.HOVER, 0, 0⟩
          scenarioStateC1).1.output_mode = ⟨ControlModeMsg.UNSET, 0, 0⟩ := by
  decide

/-- C1 (amended): for a controller whose configured output-mode list is
`{0x21, 0x12}` and a platform advertising exactly `{0x12}`, with no
preferred output mode set, negotiation fails for every request and
every bypass setting: the output-mode scan skips HOVER-class modes, so
`0x12` is never a candidate, and `0x21` has no `MATCH_ALL` platform
match. -/
theorem claim1_amended (ub : Bool) (modes_in : List Nat) (env : NegEnv)
    (req : ControlModeMsg) (hlist : env.list_response = some [0x12]) :
    (setControlModeSrvCall env req (initState ub modes_in [0x21, 0x12] 0)).2 = false := by
  have hbyp := tryToBypass_single_hover (desiredInputMode env req)
  simp only [setControlModeSrvCall, initState, setInputControlModesAvailables,
    setOutputControlModesAvailables, listPlatformAvailableControlModes, hlist]
  cases ub <;> simp [hbyp, findSuitable_fails_C1]

/-- Witness for C1 (amended): the concrete scenario environment. -/
theorem claim1_amended_witness :
    (setControlModeSrvCall scenarioEnvC1 speedRequest
      (initState false [0x12] [0x21, 0x12] 0)).2 = false :=
  claim1_amended false [0x12] scenarioEnvC1 speedRequest rfl

/-- C3 (counterexample): a successful bypass negotiation does *not*
clear the acquired flags: starting from a state with both flags set,
the bypass path reports success and both flags are still set
afterwards. -/
theorem claim3_counterexample :
    (setControlModeSrvCall bypassEnv speedRequest bypassState).2 = true
    ∧ (setControlModeSrvCall bypassEnv speedRequest bypassState).1.state_adquired = true
    ∧ (setControlModeSrvCall bypassEnv speedRequest bypassState).1.motion_reference_adquired
        = true := by
  decide

/-- C3 (amended): `control_mode_established_` always equals the
reported success; a negotiation that reaches the subclass `setMode` on
the direct path — validation produced a candidate, the platform
accepted it, bypass off — clears both acquired flags whether or not
`setMode` succeeds; every run that ends with `bypass_controller_` set
(in particular every successful bypass negotiation) leaves both flags
at their previous values. -/
theorem claim3_amended (env : NegEnv) (req : ControlModeMsg) (s : CState) :
    (setControlModeSrvCall env req s).1.control_mode_established
        = (setControlModeSrvCall env req s).2
    ∧ (∀ cand, negotiationCandidate env req s = some cand →
        env.platform_accepts (env.convBack cand) = true →
        (setControlModeSrvCall env req s).1.bypass_controller = false →
        (setControlModeSrvCall env req s).1.state_adquired = false
          ∧ (setControlModeSrvCall env req s).1.motion_reference_adquired = false)
    ∧ ((setControlModeSrvCall env req s).1.bypass_controller = true →
        (setControlModeSrvCall env req s).1.state_adquired = s.state_adquired
          ∧ (setControlModeSrvCall env req s).1.motion_reference_adquired
              = s.motion_reference_adquired) := by
  rcases setControlMode_paths env req s with ⟨pm, byp, hnone, heq⟩ | ⟨pm, byp, cand, hcand, heq⟩
  · rw [heq]
    refine ⟨rfl, ?_, fun _ => ⟨rfl, rfl⟩⟩
    intro cand hcand
    rw [hnone] at hcand
    cases hcand
  · rw [heq, afterValidation_eq]
    by_cases hacc : env.platform_accepts (env.convBack cand)
    · cases byp
      · refine ⟨by simp [hacc], ?_, by simp [hacc]⟩
        intro cand' _ _ _
        simp [hacc]
      · refine ⟨by simp [hacc], ?_, by simp [hacc]⟩
        intro cand' _ _ hbyp
        simp [hacc] at hbyp
    · refine ⟨by simp [hacc], ?_, by simp [hacc]⟩
      intro cand' hcand' hacc' _
      have hceq : cand = cand' := Option.some.inj (hcand.symm.trans hcand')
      subst hceq
      exact absurd hacc' (by simpa using hacc)

/-- Witness for C3 (amended), direct-path arm with `setMode` failing:
the negotiation reports failure, yet both acquired flags are
cleared. -/
theorem claim3_amended_witness :
    (setControlModeSrvCall bypassEnvSetModeFails speedRequest directState).2 = false
    ∧ (setControlModeSrvCall bypassEnvSetModeFails speedRequest
        directState).1.state_adquired = false
    ∧ (setControlModeSrvCall bypassEnvSetModeFails speedRequest
        directState).1.motion_reference_adquired = false :=
  ⟨by decide,
   ((claim3_amended bypassEnvSetModeFails speedRequest directState).2.1 0x55
      (by decide) rfl (by decide)).1,
   ((claim3_amended bypassEnvSetModeFails speedRequest directState).2.1 0x55
      (by decide) rfl (by decide)).2⟩

/-- C4 (counterexample): negotiating with an empty platform mode list
*does* mutate `control_mode_established_` when it was set: the flag is
unconditionally cleared at the start of every request. -/
theorem claim4_counterexample :
    establishedState.control_mode_established = true
    ∧ (setControlModeSrvCall emptyListEnv speedRequest establishedState).2 = false
    ∧ (setControlModeSrvCall emptyListEnv speedRequest establishedState).1.control_mode_established
        = false := by
  decide

/-- C4 (amended): a negotiation performed while the platform mode list
has never been fetched and the fetch returns an empty list fails
(success = false) and leaves the state unchanged except for
`control_mode_established_`, which is cleared regardless of its prior
value. -/
theorem claim4_amended (env : NegEnv) (req : ControlModeMsg) (s : CState)
    (hplat : s.platform_available_modes_in = [])
    (henv : env.list_response = some []) :
    setControlModeSrvCall env req s =
      ({ s with control_mode_established := false }, false) := by
  simp [setControlModeSrvCall, listPlatformAvailableControlModes, hplat, henv]

/-- Witness for C4 (amended): the concrete empty-list scenario. -/
theorem claim4_amended_witness :
    setControlModeSrvCall emptyListEnv speedRequest establishedState =
      ({ establishedState with control_mode_established := false }, false) :=
  claim4_amended emptyListEnv speedRequest establishedState rfl rfl

/-- C5 (counterexample): on the bypass path the control loop
republishes the cached reference with its *original* timestamp — the
published pose is byte-for-byte the cached one (stamp 5), not the
cached payload restamped with the tick's clock read (99). -/
theorem claim5_counterexample :
    (control_timer_callback someCompute 99 bypassTickState).pose_pub
        = some bypassTickState.ref_pose
    ∧ (control_timer_callback someCompute 99 bypassTickState).pose_pub
        ≠ some { bypassTickState.ref_pose with stamp := 99 }
    ∧ (control_timer_callback someCompute 99 bypassTickState).compute_called = false := by
  decide

/-- C5 (amended): on every eligible tick with bypass active and a
reference acquired, the loop publishes exactly the cached reference
pose and twist, every field (the timestamp included) unmodified,
publishes no thrust, and never invokes the subclass's compute hook. -/
theorem claim5_amended (compute : PoseStamped × TwistStamped × Thrust) (now : Nat)
    (s : CState)
    (hb : s.bypass_controller = true) (hm : s.motion_reference_adquired = true)
    (ha : s.platform_armed = true) (ho : s.platform_offboard = true)
    (he : s.control_mode_established = true) (hs : s.state_adquired = true) :
    control_timer_callback compute now s =
      { pose_pub := some s.ref_pose, twist_pub := some s.ref_twist,
        thrust_pub := Option.none, compute_called := false } := by
  simp [control_timer_callback, sendCommand, hb, hm, ha, ho, he, hs]

/-- Witness for C5 (amended): the concrete bypass tick scenario. -/
theorem claim5_amended_witness :
    control_timer_callback someCompute 99 bypassTickState =
      { pose_pub := some bypassTickState.ref_pose,
        twist_pub := some bypassTickState.ref_twist,
        thrust_pub := Option.none, compute_called := false } :=
  claim5_amended someCompute 99 bypassTickState rfl rfl rfl rfl rfl rfl

/-- The membership loop falls through (no acceptance, no break) exactly
when neither the hover arm — which requires the input's class nibble to
be HOVER *and the byte `HOVER_MODE_MASK` itself to occur in the list* —
nor byte-identity ever fires. -/
theorem membershipScan_nomatch_iff (input : Nat) (modes : List Nat) :
    membershipScan input modes = .nomatch ↔
      ¬ (((input &&& MATCH_MODE) = HOVER_MODE_MASK ∧ HOVER_MODE_MASK ∈ modes)
          ∨ input ∈ modes) := by
  induction modes with
  | nil => simp [membershipScan]
  | cons m rest ih =>
    by_cases hH : (input &&& MATCH_MODE) = HOVER_MODE_MASK
    · by_cases hm : m = HOVER_MODE_MASK
      · have harm : ((input &&& MATCH_MODE) == HOVER_MODE_MASK
            && (input &&& MATCH_MODE) == m) = true := by
          simp [hH, hm]
        simp [membershipScan, harm, hH, hm]
      · have harm : ((input &&& MATCH_MODE) == HOVER_MODE_MASK
            && (input &&& MATCH_MODE) == m) = false := by
          simp [hH]
          intro hcontra
          exact hm hcontra.symm
        by_cases hB : m = input
        · simp only [membershipScan, harm, hB]
          split <;> simp [hB]
        · have hB' : (m == input) = false := by simp [hB]
          simp only [membershipScan, harm, hB', Bool.false_eq_true, if_false, ih]
          constructor
          · intro h hc
            apply h
            rcases hc with ⟨h1, h2⟩ | h2
            · rcases List.mem_cons.mp h2 with h3 | h3
              · exact absurd h3.symm hm
              · exact Or.inl ⟨h1, h3⟩
            · rcases List.mem_cons.mp h2 with h3 | h3
              · exact absurd h3.symm hB
              · exact Or.inr h3
          · intro h hc
            apply h
            rcases hc with ⟨h1, h2⟩ | h2
            · exact Or.inl ⟨h1, List.mem_cons_of_mem m h2⟩
            · exact Or.inr (List.mem_cons_of_mem m h2)
    · have harm : ((input &&& MATCH_MODE) == HOVER_MODE_MASK
          && (input &&& MATCH_MODE) == m) = false := by
        simp [hH]
      by_cases hB : m = input
      · simp only [membershipScan, harm, hB]
        split <;> simp [hB]
      · have hB' : (m == input) = false := by simp [hB]
        simp only [membershipScan, harm, hB', Bool.false_eq_true, if_false, ih]
        constructor
        · intro h hc
          apply h
          rcases hc with ⟨h1, _⟩ | h2
          · exact absurd h1 hH
          · rcases List.mem_cons.mp h2 with h3 | h3
            · exact absurd h3.symm hB
            · exact Or.inr h3
        · intro h hc
          apply h
          rcases hc with ⟨h1, _⟩ | h2
          · exact absurd h1 hH
          · exact Or.inr (List.mem_cons_of_mem m h2)

/-- C6 (counterexample): input `0x10` is class-HOVER and matches the
accepted-input list `[0x11]` under `MATCH_MODE`, so the claim's
membership condition accepts it — but the code rejects: the hover arm
compares the unmasked list element against `HOVER_MODE_MASK` itself
(`0x11 ≠ 0x10`), and `0x11` is not byte-identical to `0x10` either. -/
theorem claim6_counterexample :
    specMembershipCheck 0x10 [0x11] = true
    ∧ checkSuitabilityInputMode 0x10 0x10 [0x11] = false := by
  decide

/-- C6 (amended): the membership loop accepts iff the input mode is
class-HOVER and the byte `HOVER_MODE_MASK` (`0x10`) itself occurs in
the controller's accepted-input list, or the input is byte-identical to
some mode of the list; when it accepts neither way, the suitability
check rejects. -/
theorem claim6_amended (input output : Nat) (modes : List Nat) :
    (membershipScan input modes ≠ .nomatch ↔
      ((input &&& MATCH_MODE) = HOVER_MODE_MASK ∧ HOVER_MODE_MASK ∈ modes)
        ∨ input ∈ modes)
    ∧ (membershipScan input modes = .nomatch →
        checkSuitabilityInputMode input output modes = false) := by
  constructor
  · have h := membershipScan_nomatch_iff input modes
    constructor
    · intro hne
      by_contra hc
      exact hne (h.mpr hc)
    · intro hc heq
      exact (h.mp heq) hc
  · intro heq
    simp [checkSuitabilityInputMode, heq]

/-- Witness for C6 (amended): `0x20` is neither hover-class nor a
member of `[0x21]`, so the suitability check rejects. -/
theorem claim6_amended_witness :
    checkSuitabilityInputMode 0x20 0 [0x21] = false :=
  (claim6_amended 0x20 0 [0x21]).2 (by decide)

/-- C9: if a negotiation passes validation (so a platform request is
made), the platform accepts, and the subclass's `setMode` hook returns
false, then the response is failure and `control_mode_established_`
stays false — yet `input_mode_` (the value `getMode` returns) and
`output_mode_` have already been overwritten with the newly requested
pair. -/
theorem claim9_modes_overwritten_on_subclass_reject (env : NegEnv)
    (req : ControlModeMsg) (s : CState) (cand : Nat)
    (hreach : negotiationCandidate env req s = some cand)
    (hacc : ∀ m, env.platform_accepts m = true)
    (hsm : ∀ a b, env.set_mode_result a b = false) :
    (setControlModeSrvCall env req s).2 = false
    ∧ (setControlModeSrvCall env req s).1.control_mode_established = false
    ∧ getMode (setControlModeSrvCall env req s).1 = req
    ∧ (setControlModeSrvCall env req s).1.output_mode = env.convBack cand := by
  rcases setControlMode_paths env req s with ⟨pm, byp, hnone, -⟩ | ⟨pm, byp, cand2, hcand, heq⟩
  · rw [hnone] at hreach
    exact absurd hreach (by simp)
  · rw [hcand] at hreach
    have hc2 : cand2 = cand := Option.some.inj hreach
    subst hc2
    rw [heq, afterValidation_eq]
    cases byp <;> simp [hacc, hsm, getMode]

/-- Witness for C9: bypass scenario whose subclass `setMode` rejects:
the request fails but the stored pair is the new one. -/
theorem claim9_witness :
    (setControlModeSrvCall bypassEnvSetModeFails speedRequest bypassState).2 = false
    ∧ (setControlModeSrvCall bypassEnvSetModeFails speedRequest
        bypassState).1.control_mode_established = false
    ∧ getMode (setControlModeSrvCall bypassEnvSetModeFails speedRequest bypassState).1
        = speedRequest
    ∧ (setControlModeSrvCall bypassEnvSetModeFails speedRequest bypassState).1.output_mode
        = bypassEnvSetModeFails.convBack 0x55
    ∧ bypassState.input_mode ≠ speedRequest :=
  ⟨(claim9_modes_overwritten_on_subclass_reject bypassEnvSetModeFails speedRequest
      bypassState 0x55 (by decide) (fun _ => rfl) (fun _ _ => rfl)).1,
   (claim9_modes_overwritten_on_subclass_reject bypassEnvSetModeFails speedRequest
      bypassState 0x55 (by decide) (fun _ => rfl) (fun _ _ => rfl)).2.1,
   (claim9_modes_overwritten_on_subclass_reject bypassEnvSetModeFails speedRequest
      bypassState 0x55 (by decide) (fun _ => rfl) (fun _ _ => rfl)).2.2.1,
   (claim9_modes_overwritten_on_subclass_reject bypassEnvSetModeFails speedRequest
      bypassState 0x55 (by decide) (fun _ => rfl) (fun _ _ => rfl)).2.2.2,
   by decide⟩

/-- With the platform mode list already cached and a successful bypass
attempt, `setControlModeSrvCall` goes straight to the tail of the
negotiation with `bypass_controller_` set. -/
theorem setControlMode_bypass_path (env : NegEnv) (req : ControlModeMsg) (s : CState)
    (cand : Nat)
    (hplat : s.platform_available_modes_in ≠ [])
    (hub : s.use_bypass = true)
    (htb : tryToBypassController (desiredInputMode env req) 0 s.platform_available_modes_in
        = (true, cand)) :
    setControlModeSrvCall env req s =
      afterValidation env req
        { s with control_mode_established := false, bypass_controller := true } cand := by
  have hemp : s.platform_available_modes_in.isEmpty = false := by
    cases h : s.platform_available_modes_in with
    | nil => exact absurd h hplat
    | cons a l => simp
  simp [setControlModeSrvCall, listPlatformAvailableControlModes, hemp, hub, htb]

/-- C10: a bypass-eligible negotiation that sets the bypass flag and
then fails — platform rejection or subclass `setMode` returning false —
leaves `bypass_controller_ = true` with `control_mode_established_ =
false`; incoming state and reference samples are then cached but not
forwarded to the subclass's update hooks. -/
theorem claim10_bypass_sticky_on_failure (env : NegEnv) (req : ControlModeMsg)
    (s : CState) (cand : Nat)
    (hplat : s.platform_available_modes_in ≠ [])
    (hub : s.use_bypass = true)
    (htb : tryToBypassController (desiredInputMode env req) 0 s.platform_available_modes_in
        = (true, cand))
    (hfail : env.platform_accepts (env.convBack cand) = false
        ∨ ∀ a b, env.set_mode_result a b = false) :
    (setControlModeSrvCall env req s).2 = false
    ∧ (setControlModeSrvCall env req s).1.bypass_controller = true
    ∧ (setControlModeSrvCall env req s).1.control_mode_established = false
    ∧ (∀ p t, (state_callback p t (setControlModeSrvCall env req s).1).2 = false
        ∧ (state_callback p t (setControlModeSrvCall env req s).1).1.pose = p
        ∧ (state_callback p t (setControlModeSrvCall env req s).1).1.twist = t)
    ∧ (∀ m, (ref_pose_callback m (setControlModeSrvCall env req s).1).2 = false
        ∧ (ref_pose_callback m (setControlModeSrvCall env req s).1).1.ref_pose = m)
    ∧ (∀ m, (ref_twist_callback m (setControlModeSrvCall env req s).1).2 = false
        ∧ (ref_twist_callback m (setControlModeSrvCall env req s).1).1.ref_twist = m) := by
  have heq := setControlMode_bypass_path env req s cand hplat hub htb
  rw [heq, afterValidation_eq]
  rcases hfail with hfl | hfl
  · simp [hfl, state_callback, ref_pose_callback, ref_twist_callback]
  · by_cases hacc : env.platform_accepts (env.convBack cand) <;>
      simp [hacc, hfl, state_callback, ref_pose_callback, ref_twist_callback]

/-- Witness for C10: the platform-rejection arm at a concrete state and
samples. -/
theorem claim10_witness :
    (setControlModeSrvCall bypassEnvPlatformRejects speedRequest bypassState).2 = false
    ∧ (setControlModeSrvCall bypassEnvPlatformRejects speedRequest
        bypassState).1.bypass_controller = true
    ∧ (setControlModeSrvCall bypassEnvPlatformRejects speedRequest
        bypassState).1.control_mode_established = false
    ∧ (state_callback ⟨9, 1⟩ ⟨9, 2⟩ (setControlModeSrvCall bypassEnvPlatformRejects
        speedRequest bypassState).1).2 = false
    ∧ (state_callback ⟨9, 1⟩ ⟨9, 2⟩ (setControlModeSrvCall bypassEnvPlatformRejects
        speedRequest bypassState).1).1.pose = ⟨9, 1⟩
    ∧ (ref_pose_callback ⟨9, 3⟩ (setControlModeSrvCall bypassEnvPlatformRejects
        speedRequest bypassState).1).2 = false :=
  ⟨(claim10_bypass_sticky_on_failure bypassEnvPlatformRejects speedRequest bypassState
      0x55 (by decide) rfl (by decide) (Or.inl rfl)).1,
   (claim10_bypass_sticky_on_failure bypassEnvPlatformRejects speedRequest bypassState
      0x55 (by decide) rfl (by decide) (Or.inl rfl)).2.1,
   (claim10_bypass_sticky_on_failure bypassEnvPlatformRejects speedRequest bypassState
      0x55 (by decide) rfl (by decide) (Or.inl rfl)).2.2.1,
   ((claim10_bypass_sticky_on_failure bypassEnvPlatformRejects speedRequest bypassState
      0x55 (by decide) rfl (by decide) (Or.inl rfl)).2.2.2.1 ⟨9, 1⟩ ⟨9, 2⟩).1,
   ((claim10_bypass_sticky_on_failure bypassEnvPlatformRejects speedRequest bypassState
      0x55 (by decide) rfl (by decide) (Or.inl rfl)).2.2.2.1 ⟨9, 1⟩ ⟨9, 2⟩).2.1,
   ((claim10_bypass_sticky_on_failure bypassEnvPlatformRejects speedRequest bypassState
      0x55 (by decide) rfl (by decide) (Or.inl rfl)).2.2.2.2.1 ⟨9, 3⟩).1⟩

/-- A negotiation never *sets* the state-acquired flag: if it is set
after `setControlModeSrvCall`, it was set before. -/
theorem negotiate_state_adquired_mono (env : NegEnv) (req : ControlModeMsg) (s : CState)
    (h : (setControlModeSrvCall env req s).1.state_adquired = true) :
    s.state_adquired = true := by
  rcases setControlMode_paths env req s with ⟨pm, byp, -, heq⟩ | ⟨pm, byp, cand, -, heq⟩
  · rw [heq] at h
    exact h
  · rw [heq, afterValidation_eq] at h
    by_cases hacc : env.platform_accepts (env.convBack cand)
    · cases byp
      · simp [hacc] at h
      · simp [hacc] at h
        exact h
    · simp [hacc] at h
      exact h

/-- Along any event trace, the state-acquired flag can only be set by a
state-sample event. -/
theorem run_state_adquired (es : List Event) : ∀ s : CState,
    (run s es).state_adquired = true →
    s.state_adquired = true ∨ es.any Event.isStateSample = true := by
  induction es with
  | nil => exact fun s h => Or.inl h
  | cons e rest ih =>
    intro s h
    have hrun : run s (e :: rest) = run (step s e) rest := rfl
    rw [hrun] at h
    rcases ih (step s e) h with h1 | h1
    · cases e with
      | stateSample p t => right; simp [Event.isStateSample]
      | refPoseMsg m => left; simpa [step, ref_pose_callback] using h1
      | refTwistMsg m => left; simpa [step, ref_twist_callback] using h1
      | refTrajMsg m => left; simpa [step, ref_traj_callback] using h1
      | platformInfoMsg a o => left; simpa [step, platform_info_callback] using h1
      | negotiateReq env req =>
        left
        exact negotiate_state_adquired_mono env req s (by simpa [step] using h1)
    · right
      simp [List.any_cons, h1]

/-- C8 (counterexample): after the trace `traceC8` — which contains a
state sample but ends with a (successful bypass) negotiation, so no
state sample arrived since the last negotiation — the next tick *does*
publish: the bypass path of the negotiation does not clear the
state-acquired and reference-acquired flags. -/
theorem claim8_counterexample :
    (control_timer_callback someCompute 99 (run (initState true [] [] 0) traceC8)).pose_pub
        ≠ Option.none
    ∧ sampleSinceLastNegotiation traceC8 = false
    ∧ traceC8.any Event.isNegotiate = true
    ∧ traceC8.any Event.isStateSample = true := by
  decide

/-- C8 (amended): on every control-loop tick, nothing is published and
the compute hook is not invoked unless the platform is armed and in
offboard mode, a control mode has been established, and at least one
state sample has been received since startup (the flag that gates the
tick is only cleared by direct-path negotiations, so "since the last
negotiation" holds only for those). -/
theorem claim8_amended (ub : Bool) (mi mo : List Nat) (pref : Nat) (es : List Event)
    (compute : PoseStamped × TwistStamped × Thrust) (now : Nat)
    (hact : control_timer_callback compute now (run (initState ub mi mo pref) es)
        ≠ TickOutput.none) :
    (run (initState ub mi mo pref) es).platform_armed = true
    ∧ (run (initState ub mi mo pref) es).platform_offboard = true
    ∧ (run (initState ub mi mo pref) es).control_mode_established = true
    ∧ es.any Event.isStateSample = true := by
  have hguards : (run (initState ub mi mo pref) es).platform_armed = true
      ∧ (run (initState ub mi mo pref) es).platform_offboard = true
      ∧ (run (initState ub mi mo pref) es).control_mode_established = true
      ∧ (run (initState ub mi mo pref) es).state_adquired = true := by
    cases h2 : (run (initState ub mi mo pref) es).platform_armed with
    | false => exact absurd (by simp [control_timer_callback, h2]) hact
    | true =>
      cases h1 : (run (initState ub mi mo pref) es).platform_offboard with
      | false => exact absurd (by simp [control_timer_callback, h1]) hact
      | true =>
        cases h3 : (run (initState ub mi mo pref) es).control_mode_established with
        | false => exact absurd (by simp [control_timer_callback, h1, h2, h3]) hact
        | true =>
          cases h4 : (run (initState ub mi mo pref) es).state_adquired with
          | false => exact absurd (by simp [control_timer_callback, h1, h2, h3, h4]) hact
          | true => exact ⟨rfl, rfl, rfl, rfl⟩
  rcases run_state_adquired es (initState ub mi mo pref) hguards.2.2.2 with hinit | hsam
  · exact absurd hinit (by
      simp [initState, setInputControlModesAvailables, setOutputControlModesAvailables])
  · exact ⟨hguards.1, hguards.2.1, hguards.2.2.1, hsam⟩

/-- Witness for C8 (amended): the `traceC8` scenario publishes, and
indeed the platform was armed, offboard, established, and a state
sample occurs in the trace. -/
theorem claim8_amended_witness :
    (run (initState true [] [] 0) traceC8).platform_armed = true
    ∧ (run (initState true [] [] 0) traceC8).platform_offboard = true
    ∧ (run (initState true [] [] 0) traceC8).control_mode_established = true
    ∧ traceC8.any Event.isStateSample = true :=
  claim8_amended true [] [] 0 traceC8 someCompute 99 (by decide)

end controller_plugin_base
